import Mathlib

/-!
Verification of the ZeroVeil gateway admission pipeline.

This file shallowly embeds the Python modules `zeroveil_gateway.pii`,
`zeroveil_gateway.tenants`, `zeroveil_gateway.policy`,
`zeroveil_gateway.audit` and `zeroveil_gateway.app` in Lean 4 and proves
the stated properties about them.  Strings are modelled as Lean `String`
(sequences of Unicode scalar values, matching Python `str` code points);
character classes of the regexes are modelled over their ASCII meaning.
Machine floats used for timestamps are modelled as integers (only
ordering and subtraction of times matter to the code under scrutiny).
-/

namespace ZeroVeil

/-- Python `str.strip()` whitespace test, restricted to the ASCII
whitespace characters (space, tab, newline, carriage return, form feed,
vertical tab). -/
def pyIsSpace (c : Char) : Bool :=
  c = ' ' || c = '\t' || c = '\n' || c = '\x0d' || c = '\x0c' || c = '\x0b'

/-- Python `str.strip()`: remove leading and trailing whitespace. -/
def pyStrip (s : String) : String :=
  ⟨(s.data.dropWhile pyIsSpace).reverse.dropWhile pyIsSpace |>.reverse⟩

/-- Python `str.lower()`, restricted to ASCII case mapping. -/
def pyLower (s : String) : String :=
  ⟨s.data.map Char.toLower⟩

/-- Regex `\w` (ASCII): letters, digits and underscore. -/
def isWordChar (c : Char) : Bool :=
  c.isAlphanum || c = '_'

/-- Regex `\d` (ASCII digits). -/
def isDigitChar (c : Char) : Bool :=
  c.isDigit

/-! ### A tiny backtracking regex engine

The five PII patterns only use character classes, concatenation,
alternation (leftmost preference), greedy repetition of character
classes, and the word-boundary anchor `\b`.  Counted repetitions of
composite bodies are expanded syntactically.  `Rx.run` enumerates the
possible suffixes left after a match in exactly the preference order a
backtracking engine such as Python `re` explores them, so the head of
the list is Python's match. -/

inductive Rx where
  | eps
  | cls (p : Char → Bool)
  | seq (a b : Rx)
  | alt (a b : Rx)
  | star (p : Char → Bool)
  | wordB
  deriving Inhabited

/-- Greedy `?` over a character class. -/
def Rx.opt (p : Char → Bool) : Rx := .alt (.cls p) .eps

/-- Greedy `+` over a character class. -/
def Rx.plus (p : Char → Bool) : Rx := .seq (.cls p) (.star p)

/-- Sequence a list of regexes. -/
def Rx.seqs : List Rx → Rx
  | [] => .eps
  | [r] => r
  | r :: rs => .seq r (Rx.seqs rs)

/-- Exactly `n` repetitions of a character class. -/
def Rx.rep (p : Char → Bool) : Nat → Rx
  | 0 => .eps
  | 1 => .cls p
  | n + 1 => .seq (.cls p) (Rx.rep p n)

/-- Greedy star over a character class: longer consumptions first.
Each result is the remaining suffix paired with the character
immediately before it (used by word-boundary tests). -/
def starRun (p : Char → Bool) : List Char → Option Char → List (List Char × Option Char)
  | [], prev => [([], prev)]
  | c :: s, prev =>
      if p c then starRun p s (some c) ++ [(c :: s, prev)]
      else [(c :: s, prev)]

/-- Word-boundary test between the previous character and the next. -/
def atBoundary (prev : Option Char) (next : Option Char) : Bool :=
  (prev.elim false isWordChar) != (next.elim false isWordChar)

/-- Run a regex on a suffix: all suffixes remaining after a match, in
backtracking preference order. -/
def Rx.run : Rx → List Char → Option Char → List (List Char × Option Char)
  | .eps, s, prev => [(s, prev)]
  | .cls _, [], _ => []
  | .cls p, c :: s, _ => if p c then [(s, some c)] else []
  | .seq a b, s, prev => (Rx.run a s prev).flatMap fun (s', prev') => Rx.run b s' prev'
  | .alt a b, s, prev => Rx.run a s prev ++ Rx.run b s prev
  | .star p, s, prev => starRun p s prev
  | .wordB, s, prev => if atBoundary prev s.head? then [(s, prev)] else []

/-- Length matched by a regex at position `i` of `text` (Python
`pattern.match(text, i)`), `none` if there is no match there. -/
def matchLenAt (r : Rx) (text : List Char) (i : Nat) : Option Nat :=
  let suffix := text.drop i
  let prev := if i = 0 then none else text.get? (i - 1)
  (Rx.run r suffix prev).head?.map fun (s', _) => suffix.length - s'.length

/-- Python `pattern.finditer`: scan positions left to right, emit
non-overlapping matches as `(start, end)` pairs, resuming after each
match. -/
def finditerAux (r : Rx) (text : List Char) : Nat → Nat → List (Nat × Nat)
  | _, 0 => []
  | i, fuel + 1 =>
      if i > text.length then []
      else
        match matchLenAt r text i with
        | some n => (i, i + n) :: finditerAux r text (if n = 0 then i + 1 else i + n) fuel
        | none => finditerAux r text (i + 1) fuel

/-- All matches of `r` in `text`, as `(start, end)` offset pairs. -/
def finditer (r : Rx) (text : List Char) : List (Nat × Nat) :=
  finditerAux r text 0 (text.length + 1)

/-- Python `pattern.search`: the first match, if any. -/
def rxSearch (r : Rx) (text : List Char) : Option (Nat × Nat) :=
  (finditer r text).head?

/-! ### zeroveil_gateway.pii -/

/-- The `PII_TYPE` literal of `pii.py`. -/
inductive PIIType where
  | ssn
  | email
  | phone
  | credit_card
  | ip_address
  deriving DecidableEq, Repr

/-- Character class `[-\s]`. -/
def sepDashSpace (c : Char) : Bool := c = '-' || pyIsSpace c

/-- Character class `[A-Za-z0-9._%+-]` (email local part). -/
def emailLocalChar (c : Char) : Bool :=
  c.isAlphanum || c = '.' || c = '_' || c = '%' || c = '+' || c = '-'

/-- Character class `[A-Za-z0-9.-]` (email domain part). -/
def emailDomainChar (c : Char) : Bool :=
  c.isAlphanum || c = '.' || c = '-'

/-- Character class `[A-Z|a-z]` (email TLD; the `|` is a literal member
of the class in the source pattern). -/
def tldChar (c : Char) : Bool :=
  c.isAlpha || c = '|'

/-- Character class `[-.\s]`. -/
def phoneSep (c : Char) : Bool := c = '-' || c = '.' || pyIsSpace c

/-- Regex `\b\d{3}[-\s]\d{2}[-\s]\d{4}\b` (SSN). -/
def ssnRx : Rx :=
  Rx.seqs [.wordB, Rx.rep isDigitChar 3, .cls sepDashSpace, Rx.rep isDigitChar 2,
    .cls sepDashSpace, Rx.rep isDigitChar 4, .wordB]

/-- Regex `\b[A-Za-z0-9._%+-]+@[A-Za-z0-9.-]+\.[A-Z|a-z]{2,}\b` (email). -/
def emailRx : Rx :=
  Rx.seqs [.wordB, Rx.plus emailLocalChar, .cls (· = '@'), Rx.plus emailDomainChar,
    .cls (· = '.'), .cls tldChar, .cls tldChar, .star tldChar, .wordB]

/-- Regex `(?:\(\d{3}\)\s?|\b\d{3}[-.\s]?)\d{3}[-.\s]?\d{4}\b` (US phone). -/
def phoneRx : Rx :=
  Rx.seq
    (Rx.alt
      (Rx.seqs [.cls (· = '('), Rx.rep isDigitChar 3, .cls (· = ')'), Rx.opt pyIsSpace])
      (Rx.seqs [.wordB, Rx.rep isDigitChar 3, Rx.opt phoneSep]))
    (Rx.seqs [Rx.rep isDigitChar 3, Rx.opt phoneSep, Rx.rep isDigitChar 4, .wordB])

/-- Regex `\b\d{4}[-\s]?\d{4}[-\s]?\d{4}[-\s]?\d{4}\b` (credit card). -/
def creditCardRx : Rx :=
  Rx.seqs [.wordB, Rx.rep isDigitChar 4, Rx.opt sepDashSpace, Rx.rep isDigitChar 4,
    Rx.opt sepDashSpace, Rx.rep isDigitChar 4, Rx.opt sepDashSpace,
    Rx.rep isDigitChar 4, .wordB]

/-- Greedy `\d{1,3}`, expanded as a digit followed by two optional digits. -/
def digit13 : Rx :=
  Rx.seqs [.cls isDigitChar, Rx.opt isDigitChar, Rx.opt isDigitChar]

/-- Regex `\b(?:\d{1,3}\.){3}\d{1,3}\b` (IPv4 address). -/
def ipAddressRx : Rx :=
  Rx.seqs [.wordB, digit13, .cls (· = '.'), digit13, .cls (· = '.'), digit13,
    .cls (· = '.'), digit13, .wordB]

/-- The `PATTERNS` dict of `pii.py`, in insertion order. -/
def PATTERNS : List (PIIType × Rx) :=
  [(.ssn, ssnRx), (.email, emailRx), (.phone, phoneRx),
   (.credit_card, creditCardRx), (.ip_address, ipAddressRx)]

/-- The `DEFAULT_ENABLED` frozenset of `pii.py` (a set: only membership
matters). -/
def DEFAULT_ENABLED : List PIIType :=
  [.ssn, .credit_card, .email, .phone, .ip_address]

/-- A detected PII match.  As in the source, only the type and the
offsets are stored — never the matched text.  The Python field `end` is
named `end_` here (`end` is a Lean keyword). -/
structure PIIMatch where
  pii_type : PIIType
  start : Nat
  end_ : Nat
  deriving DecidableEq, Repr

/-- The `PIIDetectorConfig` dataclass: `patterns` is a frozenset, so
only membership in the list is meaningful. -/
structure PIIDetectorConfig where
  enabled : Bool := true
  patterns : List PIIType := DEFAULT_ENABLED
  deriving DecidableEq, Repr

/-- The `patterns` entry of a raw `pii_gate` JSON object: absent
(`None`), a list, or some other value. -/
inductive PatternsField where
  | absent
  | ofList (xs : List String)
  | other
  deriving DecidableEq

/-- A raw `pii_gate` configuration dict.  `enabled` is the truthiness
of the provided `enabled` entry (`none` when the key is absent). -/
structure RawPIIGate where
  enabled : Option Bool := none
  patterns : PatternsField := .absent

/-- Membership test `p in PATTERNS` on the pattern-dict keys. -/
def piiTypeOfString (s : String) : Option PIIType :=
  if s = "ssn" then some .ssn
  else if s = "email" then some .email
  else if s = "phone" then some .phone
  else if s = "credit_card" then some .credit_card
  else if s = "ip_address" then some .ip_address
  else none

/-- `PIIDetectorConfig.from_dict`.  The `valid_patterns` set is modelled
as the deduplicated list of recognized names. -/
def PIIDetectorConfig.from_dict : Option RawPIIGate → PIIDetectorConfig
  | none => {}
  | some data =>
      let enabled := data.enabled.getD true
      let patterns :=
        match data.patterns with
        | .absent => DEFAULT_ENABLED
        | .ofList xs =>
            let valid := (xs.filterMap piiTypeOfString).dedup
            if valid.isEmpty then DEFAULT_ENABLED else valid
        | .other => DEFAULT_ENABLED
      { enabled := enabled, patterns := patterns }

/-- `PIIDetector.__init__`: the `_active_patterns` dict, i.e. `PATTERNS`
restricted to the configured pattern types (in `PATTERNS` order). -/
def activePatterns (config : PIIDetectorConfig) : List (PIIType × Rx) :=
  PATTERNS.filter fun pr => config.patterns.contains pr.1

/-- `PIIDetector.scan`: all matches of all active patterns, pattern
types in `PATTERNS` order, matches of one pattern in text order. -/
def PIIDetector.scan (config : PIIDetectorConfig) (text : String) : List PIIMatch :=
  if !config.enabled then []
  else
    (activePatterns config).flatMap fun pr =>
      (finditer pr.2 text.data).map fun se =>
        { pii_type := pr.1, start := se.1, end_ := se.2 }

/-- `PIIDetector.contains_pii`: true when some active pattern has a
match. -/
def PIIDetector.contains_pii (config : PIIDetectorConfig) (text : String) : Bool :=
  if !config.enabled then false
  else (activePatterns config).any fun pr => (rxSearch pr.2 text.data).isSome

/-- `PIIDetector.scan_messages`: map from message index to its matches,
only indices with at least one match included (a dict, modelled as an
association list in index order). -/
def PIIDetector.scan_messages (config : PIIDetectorConfig)
    (messages : List (Option String)) : List (Nat × List PIIMatch) :=
  if !config.enabled then []
  else
    messages.enum.filterMap fun im =>
      let ms := PIIDetector.scan config (im.2.getD "")
      if ms.isEmpty then none else some (im.1, ms)

/-! ### zeroveil_gateway.tenants -/

/-- The `TenantConfig` dataclass (fields as stored; the `__post_init__`
validation is `TenantConfig.post_init` below). -/
structure TenantConfig where
  tenant_id : String
  api_keys : List String
  rate_limit_rpm : Int
  rate_limit_tpd : Int
  enabled : Bool
  deriving DecidableEq, Repr

/-- The sixteen characters of the string `"0123456789abcdef"`. -/
def hexDigits : List Char := "0123456789abcdef".data

/-- Validation of one `api_keys` entry in `TenantConfig.__post_init__`:
normalize with `strip().lower()`, then require a 64-character string of
hex digits. -/
def checkApiKey (key_hash : String) : Except String Unit :=
  let normalized := pyLower (pyStrip key_hash)
  if normalized.length ≠ 64 then
    .error "api_keys entries must be sha256 hex digests"
  else if normalized.data.any fun ch => !hexDigits.contains ch then
    .error "api_keys entries must be sha256 hex digests"
  else .ok ()

/-- Validate a list of `api_keys` entries in order, stopping at the
first failure. -/
def checkApiKeys : List String → Except String Unit
  | [] => .ok ()
  | k :: ks =>
      match checkApiKey k with
      | .error e => .error e
      | .ok _ => checkApiKeys ks

/-- `TenantConfig.__post_init__`: the validation run at construction
(the `isinstance` checks are enforced by the Lean types). -/
def TenantConfig.post_init (t : TenantConfig) : Except String Unit :=
  if t.tenant_id = "" || pyStrip t.tenant_id = "" then
    .error "tenant_id must be non-empty"
  else if t.rate_limit_rpm < 0 then
    .error "rate_limit_rpm must be >= 0"
  else if t.rate_limit_tpd < 0 then
    .error "rate_limit_tpd must be >= 0"
  else checkApiKeys t.api_keys

/-- `TenantRegistry.authenticate`, parameterized by the SHA-256 hex
digest function (`sha256_hex` in the source, kept abstract here); the
registry's tenants dict is modelled as the list of its values in
registration order.  `secrets.compare_digest` on two hex strings is
equality. -/
def authenticate (hash : String → String) (tenants : List TenantConfig)
    (bearer_token : String) : Option TenantConfig :=
  let token := pyStrip bearer_token
  if token = "" then none
  else
    let token_hash := hash token
    tenants.foldl
      (fun matched tenant =>
        tenant.api_keys.foldl
          (fun m candidate =>
            if token_hash = candidate && tenant.enabled then some tenant else m)
          matched)
      none

/-- The mutable state of a `TenantRegistry`: tenants in registration
order and the two per-tenant sliding windows (timestamps are modelled
as integers). -/
structure RegistryState where
  tenants : List TenantConfig
  requests_by_tenant : List (String × List Int) := []
  tokens_by_tenant : List (String × List (Int × Int)) := []
  deriving Repr

/-- Look a key up in an association list, with a default. -/
def lookupD {α : Type} (m : List (String × α)) (k : String) (d : α) : α :=
  ((m.find? fun kv => kv.1 = k).map fun kv => kv.2).getD d

/-- Store a key in an association list, replacing an existing entry. -/
def setKey {α : Type} (m : List (String × α)) (k : String) (v : α) :
    List (String × α) :=
  (m.filter fun kv => kv.1 ≠ k) ++ [(k, v)]

/-- `self._tenants.get(tenant_id)`. -/
def RegistryState.findTenant (st : RegistryState) (tid : String) : Option TenantConfig :=
  st.tenants.find? fun t => t.tenant_id = tid

/-- `TenantRegistry._prune_requests`: drop leading window entries with
`ts <= now - 60`, store the pruned deque back, and return it. -/
def prune_requests (st : RegistryState) (tid : String) (now : Int) :
    List Int × RegistryState :=
  let dq := lookupD st.requests_by_tenant tid []
  let dq' := dq.dropWhile fun ts => ts ≤ now - 60
  (dq', { st with requests_by_tenant := setKey st.requests_by_tenant tid dq' })

/-- `TenantRegistry._prune_tokens`: drop leading window entries with
timestamp `<= now - 86400`. -/
def prune_tokens (st : RegistryState) (tid : String) (now : Int) :
    List (Int × Int) × RegistryState :=
  let dq := lookupD st.tokens_by_tenant tid []
  let dq' := dq.dropWhile fun e => e.1 ≤ now - 86400
  (dq', { st with tokens_by_tenant := setKey st.tokens_by_tenant tid dq' })

/-- `TenantRegistry.rpm_remaining` (`none` means unlimited). -/
def rpm_remaining (st : RegistryState) (tid : String) (now : Int) :
    Option Int × RegistryState :=
  match st.findTenant tid with
  | none => (some 0, st)
  | some tenant =>
      if !tenant.enabled then (some 0, st)
      else if tenant.rate_limit_rpm = 0 then (none, st)
      else
        let pr := prune_requests st tid now
        (some (max 0 (tenant.rate_limit_rpm - pr.1.length)), pr.2)

/-- `TenantRegistry.tpd_remaining` (`none` means unlimited). -/
def tpd_remaining (st : RegistryState) (tid : String) (now : Int) :
    Option Int × RegistryState :=
  match st.findTenant tid with
  | none => (some 0, st)
  | some tenant =>
      if !tenant.enabled then (some 0, st)
      else if tenant.rate_limit_tpd = 0 then (none, st)
      else
        let pr := prune_tokens st tid now
        let used : Int := (pr.1.map fun e => e.2).sum
        (some (max 0 (tenant.rate_limit_tpd - used)), pr.2)

/-- The RPM half of `check_rate_limit`: unlimited RPM allows without
touching the window; otherwise prune, deny when the window is full,
else append `now` and allow. -/
def rpmStep (st : RegistryState) (tenant : TenantConfig) (tid : String)
    (now : Int) : Bool × RegistryState :=
  if tenant.rate_limit_rpm = 0 then (true, st)
  else
    let pr := prune_requests st tid now
    if tenant.rate_limit_rpm ≤ (pr.1.length : Int) then (false, pr.2)
    else
      (true, { pr.2 with
        requests_by_tenant := setKey pr.2.requests_by_tenant tid (pr.1 ++ [now]) })

/-- `TenantRegistry.check_rate_limit`. -/
def check_rate_limit (st : RegistryState) (tid : String) (now : Int) :
    Bool × RegistryState :=
  match st.findTenant tid with
  | none => (false, st)
  | some tenant =>
      if !tenant.enabled then (false, st)
      else if tenant.rate_limit_tpd ≠ 0 then
        let tr := tpd_remaining st tid now
        match tr.1 with
        | some r => if r ≤ 0 then (false, tr.2) else rpmStep tr.2 tenant tid now
        | none => rpmStep tr.2 tenant tid now
      else rpmStep st tenant tid now

/-- `TenantRegistry.record_usage`. -/
def record_usage (st : RegistryState) (tid : String) (tokens : Int)
    (now : Int) : Except String RegistryState :=
  match st.findTenant tid with
  | none => .ok st
  | some tenant =>
      if !tenant.enabled then .ok st
      else if tokens < 0 then .error "tokens must be >= 0"
      else if tenant.rate_limit_tpd = 0 then .ok st
      else
        let pr := prune_tokens st tid now
        .ok { pr.2 with
          tokens_by_tenant := setKey pr.2.tokens_by_tenant tid (pr.1 ++ [(now, tokens)]) }

/-! ### zeroveil_gateway.policy -/

/-- `DEFAULT_MAX_SIZE_MB` in `policy.py`. -/
def DEFAULT_MAX_SIZE_MB : Int := 100

/-- `DEFAULT_MAX_AGE_DAYS` in `policy.py`. -/
def DEFAULT_MAX_AGE_DAYS : Int := 30

/-- `DEFAULT_ROTATE_COUNT` in `policy.py`. -/
def DEFAULT_ROTATE_COUNT : Int := 5

/-- The `RetentionConfig` dataclass. -/
structure RetentionConfig where
  max_size_mb : Int := DEFAULT_MAX_SIZE_MB
  max_age_days : Int := DEFAULT_MAX_AGE_DAYS
  rotate_count : Int := DEFAULT_ROTATE_COUNT
  deriving DecidableEq, Repr

/-- A raw `logging.retention` JSON object. -/
structure RawRetention where
  max_size_mb : Option Int := none
  max_age_days : Option Int := none
  rotate_count : Option Int := none

/-- A raw `logging` JSON object. -/
structure RawLogging where
  mode : Option String := none
  sink : Option String := none
  path : Option String := none
  retention : Option RawRetention := none

/-- A raw policy JSON object.  The `limits` sub-object is flattened
into its two fields; `none` stands for an absent (or, where Python uses
`or`, falsy) value. -/
structure RawPolicy where
  version : Option String := none
  enforce_zdr_only : Option Bool := none
  require_scrubbed_attestation : Option Bool := none
  allowed_providers : Option (List String) := none
  allowed_models : Option (List String) := none
  max_messages : Option Int := none
  max_chars_per_message : Option Int := none
  logging : Option RawLogging := none
  pii_gate : Option RawPIIGate := none

/-- Python `x or default` on an optional list: an absent or empty list
gives the default. -/
def pyOrList (o : Option (List String)) (d : List String) : List String :=
  match o with
  | none => d
  | some xs => if xs.isEmpty then d else xs

/-- The validated `Policy` dataclass.  The `LogPath` wrapper is
flattened: `logging_path` is the path string and `logging_retention`
the retention carried with it. -/
structure Policy where
  version : String
  enforce_zdr_only : Bool
  require_scrubbed_attestation : Bool
  allowed_providers : List String
  allowed_models : List String
  max_messages : Int
  max_chars_per_message : Int
  logging_mode : String
  logging_sink : String
  logging_path : Option String
  logging_retention : RetentionConfig := {}
  pii_gate : PIIDetectorConfig := {}
  deriving Repr

/-- `Policy.from_dict`: validation in source order, raising
`PolicyError` (modelled as `Except.error` with the message) at the
first violation. -/
def Policy.from_dict (data : RawPolicy) : Except String Policy :=
  let logging_cfg := data.logging.getD {}
  let retention_cfg := logging_cfg.retention.getD {}
  let version := data.version.getD "0"
  let enforce_zdr_only := data.enforce_zdr_only.getD true
  let require_scrubbed_attestation := data.require_scrubbed_attestation.getD true
  let allowed_providers := pyOrList data.allowed_providers []
  let allowed_models := pyOrList data.allowed_models ["*"]
  let max_messages := data.max_messages.getD 50
  let max_chars_per_message := data.max_chars_per_message.getD 16000
  let logging_mode := logging_cfg.mode.getD "metadata_only"
  if logging_mode ≠ "metadata_only" then
    .error ("Unsupported logging.mode: " ++ logging_mode)
  else
    let logging_sink := logging_cfg.sink.getD "jsonl"
    if logging_sink ≠ "jsonl" && logging_sink ≠ "stdout" then
      .error ("Unsupported logging.sink: " ++ logging_sink)
    else
      let logging_path := logging_cfg.path
      if logging_sink = "jsonl" && logging_path.getD "" = "" then
        .error "logging.path required when logging.sink is jsonl"
      else
        let retention : RetentionConfig :=
          { max_size_mb := retention_cfg.max_size_mb.getD DEFAULT_MAX_SIZE_MB,
            max_age_days := retention_cfg.max_age_days.getD DEFAULT_MAX_AGE_DAYS,
            rotate_count := retention_cfg.rotate_count.getD DEFAULT_ROTATE_COUNT }
        if retention.max_size_mb < 0 then
          .error "logging.retention.max_size_mb must be >= 0"
        else if retention.max_age_days < 0 then
          .error "logging.retention.max_age_days must be >= 0"
        else if retention.rotate_count < 0 then
          .error "logging.retention.rotate_count must be >= 0"
        else if allowed_providers.isEmpty then
          .error "allowed_providers must be non-empty"
        else
          .ok { version := version,
                enforce_zdr_only := enforce_zdr_only,
                require_scrubbed_attestation := require_scrubbed_attestation,
                allowed_providers := allowed_providers,
                allowed_models := allowed_models,
                max_messages := max_messages,
                max_chars_per_message := max_chars_per_message,
                logging_mode := logging_mode,
                logging_sink := logging_sink,
                logging_path := if logging_path.getD "" = "" then none else logging_path,
                logging_retention := retention,
                pii_gate := PIIDetectorConfig.from_dict data.pii_gate }

/-! ### zeroveil_gateway.audit — rotation and cleanup

The audit log directory is modelled as the active file plus the rotated
files `path.k` with numeric suffix `k`, each carrying a size and a
modification time.  Files whose suffix is not a numeric literal are
skipped by `_cleanup_rotated_files` and never touched by rotation, so
they are not part of the model. -/

/-- Size and modification time of a file on disk. -/
structure FileMeta where
  size : Nat
  mtime : Int
  deriving DecidableEq, Repr

/-- The rotated files `path.k`, as an association list on the numeric
suffix. -/
abbrev RotFiles := List (Nat × FileMeta)

/-- The file-system state around one audit log path. -/
structure LogFS where
  active : Option FileMeta
  rot : RotFiles
  deriving DecidableEq, Repr

/-- Content of `path.k`, if that file exists. -/
def lookupRot (rot : RotFiles) (k : Nat) : Option FileMeta :=
  (rot.find? fun kv => kv.1 = k).map fun kv => kv.2

/-- Remove `path.k`. -/
def eraseRot (rot : RotFiles) (k : Nat) : RotFiles :=
  rot.filter fun kv => kv.1 ≠ k

/-- Create or overwrite `path.k`. -/
def writeRot (rot : RotFiles) (k : Nat) (f : FileMeta) : RotFiles :=
  eraseRot rot k ++ [(k, f)]

/-- One iteration of the rotation shift: `os.replace(path.i, path.(i+1))`
when `path.i` exists. -/
def shiftStep (rot : RotFiles) (i : Nat) : RotFiles :=
  match lookupRot rot i with
  | none => rot
  | some f => writeRot (eraseRot rot i) (i + 1) f

/-- The shift loop `for i in range(rotate_count - 1, 0, -1)`:
`shiftRotations rot m` processes indices `m, m-1, ..., 1`. -/
def shiftRotations (rot : RotFiles) : Nat → RotFiles
  | 0 => rot
  | i + 1 => shiftRotations (shiftStep rot (i + 1)) i

/-- The keep test of `_cleanup_rotated_files` for one rotated file:
delete when the suffix exceeds `rotate_count`; otherwise, when
`max_age_days` is positive, delete when older than the cutoff. -/
def cleanupKeep (cfg : RetentionConfig) (now : Int) (kf : Nat × FileMeta) : Bool :=
  if (kf.1 : Int) > cfg.rotate_count then false
  else if cfg.max_age_days ≤ 0 then true
  else !(kf.2.mtime < now - cfg.max_age_days * 86400)

/-- `AuditLogger._cleanup_rotated_files`. -/
def cleanup_rotated_files (cfg : RetentionConfig) (now : Int) (fs : LogFS) : LogFS :=
  if cfg.rotate_count ≤ 0 then fs
  else { fs with rot := fs.rot.filter (cleanupKeep cfg now) }

/-- `AuditLogger._maybe_rotate`: no-op when rotation is disabled, the
active log is missing, or it is below the size threshold; otherwise
shift the rotations, move the active log to `path.1`, and clean up. -/
def maybe_rotate (cfg : RetentionConfig) (now : Int) (fs : LogFS) : LogFS :=
  if cfg.rotate_count ≤ 0 || cfg.max_size_mb ≤ 0 then fs
  else
    match fs.active with
    | none => fs
    | some f =>
        if (f.size : Int) < cfg.max_size_mb * 1024 * 1024 then fs
        else
          let rot1 := shiftRotations fs.rot (cfg.rotate_count - 1).toNat
          let rot2 := writeRot rot1 1 f
          cleanup_rotated_files cfg now { active := none, rot := rot2 }

/-! ### zeroveil_gateway.app — the admission pipeline

`chat_completions` is embedded as a pure function from the gateway's
configuration, the parsed request, the headers, and the clock readings
to the list of audit events logged, the outcome, and the updated
registry state.  `elapsed_ms` stands for `int((time.time() - started) *
1000)` at the moment an event is emitted, and `now` for the current
timestamps. -/

/-- `ALLOWED_ROLES` from `schemas.py`. -/
def ALLOWED_ROLES : List String := ["system", "user", "assistant", "tool", "function"]

/-- A message of a parsed `ChatCompletionsRequest`. -/
structure ChatMessage where
  role : String
  content : Option String
  deriving DecidableEq, Repr

/-- The `metadata` object of a request (only `scrubbed` is read by the
pipeline). -/
structure RequestMetadata where
  scrubbed : Bool := false
  deriving DecidableEq, Repr

/-- A parsed `ChatCompletionsRequest`. -/
structure ChatCompletionsRequest where
  messages : List ChatMessage
  model : Option String := none
  zdr_only : Bool := true
  metadata : RequestMetadata := {}
  deriving DecidableEq, Repr

/-- A value of a `details` dict. -/
inductive DVal where
  | s (v : String)
  | i (v : Int)
  | strList (v : List String)
  | optInt (v : Option Int)
  deriving DecidableEq, Repr

/-- A `details` dict, as an association list. -/
abbrev Details := List (String × DVal)

/-- The string name of a PII type (the `PII_TYPE` literal values). -/
def PIIType.toName : PIIType → String
  | .ssn => "ssn"
  | .email => "email"
  | .phone => "phone"
  | .credit_card => "credit_card"
  | .ip_address => "ip_address"

/-- The `GatewayError` exception payload. -/
structure GatewayError where
  http_status : Nat
  code : String
  message : String
  details : Details
  deriving DecidableEq, Repr

/-- An audit event as built by `AuditEvent.now` in the pipeline.  The
nested `extra` dict is flattened: for deny events, `extra` holds the
value of its single `details` key; for the allow event, its single
`policy_version` entry. -/
structure AuditEvent where
  ts : Int
  request_id : String
  tenant_id : String
  action : String
  reason : String
  provider : Option String
  model : Option String
  message_count : Nat
  total_chars : Nat
  zdr_only : Bool
  scrubbed_attested : Bool
  latency_ms : Int
  extra : Details
  deriving DecidableEq, Repr

/-- The token usage of a response. -/
structure Usage where
  prompt_tokens : Nat
  completion_tokens : Nat
  total_tokens : Nat
  deriving DecidableEq, Repr

/-- One choice message of a response. -/
structure ChoiceMessage where
  role : String
  content : String
  deriving DecidableEq, Repr

/-- One choice of a response. -/
structure Choice where
  index : Nat
  message : ChoiceMessage
  finish_reason : String
  deriving DecidableEq, Repr

/-- A `ChatCompletionsResponse`. -/
structure ChatCompletionsResponse where
  id : String
  object : String
  created : Int
  model : String
  choices : List Choice
  usage : Usage
  deriving DecidableEq, Repr

/-- The configuration `create_app` assembles: the policy (whose
`pii_gate` configures the detector), the optional tenant registry, the
optional legacy key, and the SHA-256 hex digest function (abstract). -/
structure GatewayEnv where
  hash : String → String
  policy : Policy
  registry : Option RegistryState
  legacy_api_key : Option String

/-- What one call of `chat_completions` produces: the audit events
logged (in order), the outcome, and the registry state afterwards. -/
structure PipelineResult where
  events : List AuditEvent
  result : Except GatewayError ChatCompletionsResponse
  registry : Option RegistryState

/-- The deny audit event logged by the `deny` helper of
`chat_completions`. -/
def mkDenyEvent (req : ChatCompletionsRequest) (request_id tenant_id : String)
    (code : String) (details : Details) (now elapsed_ms : Int) : AuditEvent :=
  { ts := now, request_id := request_id, tenant_id := tenant_id,
    action := "deny", reason := code, provider := none, model := req.model,
    message_count := req.messages.length,
    total_chars := (req.messages.map fun m => (m.content.getD "").length).sum,
    zdr_only := req.zdr_only, scrubbed_attested := req.metadata.scrubbed,
    latency_ms := elapsed_ms, extra := details }

/-- The `deny` helper: log exactly one deny event, then raise
`GatewayError`. -/
def denyOut (req : ChatCompletionsRequest) (request_id tenant_id : String)
    (code message : String) (details : Details) (http : Nat)
    (now elapsed_ms : Int) (reg : Option RegistryState) : PipelineResult :=
  { events := [mkDenyEvent req request_id tenant_id code details now elapsed_ms],
    result := .error
      { http_status := http, code := code, message := message, details := details },
    registry := reg }

/-- The authentication and rate-limiting prologue of `chat_completions`
(lines 124-151): either a denial, or the effective tenant id and the
updated registry. -/
def authPhase (env : GatewayEnv) (req : ChatCompletionsRequest)
    (authorization : Option String) (tenant_id0 request_id : String)
    (now elapsed_ms : Int) : PipelineResult ⊕ (String × Option RegistryState) :=
  match env.registry with
  | some reg =>
      if (authorization.getD "") = "" || !(authorization.getD "").startsWith "Bearer " then
        .inl (denyOut req request_id tenant_id0 "unauthorized" "Missing bearer token"
          [("header", .s "Authorization")] 401 now elapsed_ms (some reg))
      else
        let token := pyStrip ((authorization.getD "").drop 7)
        match authenticate env.hash reg.tenants token with
        | none =>
            .inl (denyOut req request_id tenant_id0 "unauthorized" "Invalid API key"
              [] 401 now elapsed_ms (some reg))
        | some tenant =>
            let tid := tenant.tenant_id
            let cr := check_rate_limit reg tid now
            if !cr.1 then
              let rr := rpm_remaining cr.2 tid now
              let tr := tpd_remaining rr.2 tid now
              .inl (denyOut req request_id tid "rate_limited" "Rate limit exceeded"
                [("rpm_remaining", .optInt rr.1), ("tpd_remaining", .optInt tr.1)]
                429 now elapsed_ms (some tr.2))
            else .inr (tid, some cr.2)
  | none =>
      match env.legacy_api_key with
      | some key =>
          if (authorization.getD "") = "" || !(authorization.getD "").startsWith "Bearer " then
            .inl (denyOut req request_id tenant_id0 "unauthorized" "Missing bearer token"
              [("header", .s "Authorization")] 401 now elapsed_ms none)
          else if pyStrip ((authorization.getD "").drop 7) ≠ key then
            .inl (denyOut req request_id tenant_id0 "unauthorized" "Invalid API key"
              [] 401 now elapsed_ms none)
          else .inr (tenant_id0, none)
      | none => .inr (tenant_id0, none)

/-- The `chat_completions` endpoint body. -/
def chat_completions (env : GatewayEnv) (req : ChatCompletionsRequest)
    (authorization : Option String) (x_zeroveil_tenant : Option String)
    (request_id : String) (now elapsed_ms : Int) : PipelineResult :=
  let tenant_id0 := if (x_zeroveil_tenant.getD "") = "" then "default"
                    else x_zeroveil_tenant.getD ""
  match authPhase env req authorization tenant_id0 request_id now elapsed_ms with
  | .inl out => out
  | .inr tr =>
    let tenant_id := tr.1
    let reg := tr.2
    let D := fun (code message : String) (details : Details) (http : Nat) =>
      denyOut req request_id tenant_id code message details http now elapsed_ms reg
    if req.messages.isEmpty then
      D "invalid_request" "messages must be non-empty" [("field", .s "messages")] 400
    else
      match req.messages.enum.find? fun im => !ALLOWED_ROLES.contains im.2.role with
      | some im =>
          D "invalid_request" "Invalid message role"
            [("field", .s ("messages[" ++ toString im.1 ++ "].role")),
             ("value", .s im.2.role), ("allowed", .strList ALLOWED_ROLES)] 400
      | none =>
        let piiHit :=
          if env.policy.pii_gate.enabled then
            req.messages.enum.find? fun im =>
              !(PIIDetector.scan env.policy.pii_gate (im.2.content.getD "")).isEmpty
          else none
        match piiHit with
        | some im =>
            let ms := PIIDetector.scan env.policy.pii_gate (im.2.content.getD "")
            let detected_types := ((ms.map fun m => m.pii_type).dedup).map PIIType.toName
            D "pii_detected" "Request contains unscrubbed PII. Scrub before retry."
              [("field", .s ("messages[" ++ toString im.1 ++ "].content")),
               ("detected_types", .strList detected_types)] 403
        | none =>
          if (req.messages.length : Int) > env.policy.max_messages then
            D "policy_denied" "Too many messages"
              [("limit", .i env.policy.max_messages)] 403
          else
            let modelDeny :=
              if env.policy.allowed_models.isEmpty
                  || env.policy.allowed_models.contains "*" then none
              else
                match req.model with
                | none => none
                | some m =>
                    if env.policy.allowed_models.contains m then none
                    else some (D "policy_denied" "Model not allowed by policy"
                      [("field", .s "model"), ("value", .s m),
                       ("allowed", .strList env.policy.allowed_models)] 403)
            match modelDeny with
            | some out => out
            | none =>
              match req.messages.enum.find? fun im =>
                  env.policy.max_chars_per_message < ((im.2.content.getD "").length : Int) with
              | some im =>
                  D "policy_denied" "Message too large"
                    [("index", .i im.1), ("limit", .i env.policy.max_chars_per_message)] 403
              | none =>
                if env.policy.enforce_zdr_only && !req.zdr_only then
                  D "policy_denied" "zdr_only must be true" [("field", .s "zdr_only")] 403
                else if env.policy.require_scrubbed_attestation && !req.metadata.scrubbed then
                  D "policy_denied"
                    "Scrub attestation required (metadata.scrubbed=true). ZeroVeil does not scrub content server-side."
                    [("field", .s "metadata.scrubbed")] 403
                else
                  match req.messages.enum.find? fun im =>
                      im.2.content.isNone || (im.2.content.getD "").data.contains '\x00' with
                  | some im =>
                      if im.2.content.isNone then
                        D "invalid_request" "messages[i].content must be a string"
                          [("field", .s ("messages[" ++ toString im.1 ++ "].content"))] 400
                      else
                        D "invalid_request" "messages[i].content contains null bytes"
                          [("field", .s ("messages[" ++ toString im.1 ++ "].content"))] 400
                  | none =>
                    match env.policy.allowed_providers.head? with
                    | none =>
                        let indexError : GatewayError :=
                          { http_status := 500, code := "internal_error",
                            message := "list index out of range", details := [] }
                        { events := [], result := .error indexError, registry := reg }
                    | some selected_provider =>
                      let selected_model := req.model.getD "stub"
                      let allowEvent : AuditEvent :=
                        { ts := now, request_id := request_id, tenant_id := tenant_id,
                          action := "allow", reason := "ok",
                          provider := some selected_provider,
                          model := some selected_model,
                          message_count := req.messages.length,
                          total_chars := (req.messages.map fun m => (m.content.getD "").length).sum,
                          zdr_only := req.zdr_only,
                          scrubbed_attested := req.metadata.scrubbed,
                          latency_ms := elapsed_ms,
                          extra := [("policy_version", .s env.policy.version)] }
                      let stubChoice : Choice :=
                        { index := 0,
                          message := { role := "assistant", content := "stubbed_response" },
                          finish_reason := "stop" }
                      let resp : ChatCompletionsResponse :=
                        { id := request_id, object := "chat.completion", created := now,
                          model := selected_model,
                          choices := [stubChoice],
                          usage := ⟨0, 0, 0⟩ }
                      let regFinal :=
                        match reg with
                        | none => none
                        | some rs =>
                            some ((record_usage rs tenant_id
                              (resp.usage.total_tokens : Int) now).toOption.getD rs)
                      { events := [allowEvent], result := .ok resp, registry := regFinal }

/-! ### Concrete fixtures and small helpers used by the theorems -/

/-- A validated policy in the shape of the repository's default:
one provider, wildcard models, default limits, both attestations on. -/
def basePolicy : Policy :=
  { version := "0", enforce_zdr_only := true, require_scrubbed_attestation := true,
    allowed_providers := ["openrouter"], allowed_models := ["*"],
    max_messages := 50, max_chars_per_message := 16000,
    logging_mode := "metadata_only", logging_sink := "stdout", logging_path := none }

/-- The base policy with the PII gate disabled. -/
def noPiiPolicy : Policy := { basePolicy with pii_gate := { enabled := false } }

/-- A gateway in legacy open mode (no registry, no legacy key) with the
PII gate disabled. -/
def envNoPII : GatewayEnv :=
  { hash := id, policy := noPiiPolicy, registry := none, legacy_api_key := none }

/-- A PII gate configured with only the `ssn` pattern. -/
def ssnOnlyGate : PIIDetectorConfig := { enabled := true, patterns := [.ssn] }

/-- The base policy with the PII gate restricted to `ssn`. -/
def ssnPolicy : Policy := { basePolicy with pii_gate := ssnOnlyGate }

/-- A gateway in open mode with the `ssn`-only PII gate. -/
def envSsn : GatewayEnv :=
  { hash := id, policy := ssnPolicy, registry := none, legacy_api_key := none }

/-- A request whose content contains a null byte and that also fails
the `zdr_only` attestation. -/
def nullByteReq : ChatCompletionsRequest :=
  { messages := [{ role := "user", content := some "hi\x00there" }],
    model := none, zdr_only := false, metadata := { scrubbed := true } }

/-- The request of the SSN scenario in the spec's testable properties. -/
def ssnReq : ChatCompletionsRequest :=
  { messages := [{ role := "user", content := some "My SSN is 123-45-6789" }],
    model := none, zdr_only := true, metadata := { scrubbed := true } }

/-- A tenant whose single key hash is 64 uppercase hex characters. -/
def upperKeyTenant : TenantConfig :=
  ⟨"t", ["ABCDEF0123456789ABCDEF0123456789ABCDEF0123456789ABCDEF0123456789"], 0, 0, true⟩

/-- A tenant with valid fixed fields and one arbitrary key entry. -/
def oneKeyTenant (k : String) : TenantConfig := ⟨"t", [k], 0, 0, true⟩

/-- A raw policy with an empty provider list and an invalid logging
mode. -/
def emptyProvidersBadModeRaw : RawPolicy :=
  { allowed_providers := some [], logging := some { mode := some "content" } }

/-- The `details` dict of the SSN scenario's denial. -/
def ssnDenialDetails : Details :=
  [("field", DVal.s "messages[0].content"), ("detected_types", DVal.strList ["ssn"])]

/-- The typed error of the SSN scenario's denial. -/
def ssnDenialError : GatewayError :=
  { http_status := 403, code := "pii_detected",
    message := "Request contains unscrubbed PII. Scrub before retry.",
    details := ssnDenialDetails }

/-- The typed error of a `zdr_only` attestation denial. -/
def zdrDenialError : GatewayError :=
  { http_status := 403, code := "policy_denied",
    message := "zdr_only must be true", details := [("field", DVal.s "zdr_only")] }

/-- A raw policy with an empty provider list but valid logging fields
(stdout sink). -/
def emptyProvidersStdoutRaw : RawPolicy :=
  { allowed_providers := some [], logging := some { sink := some "stdout" } }

/-- A tenant with an RPM limit of 2 and no TPD limit. -/
def acmeTenant : TenantConfig := ⟨"acme", [], 2, 0, true⟩

/-- A fresh registry holding only `acmeTenant`. -/
def rpm2State : RegistryState := { tenants := [acmeTenant] }

/-- A tenant with both limits 0 (unlimited). -/
def unlimitedTenant : TenantConfig := ⟨"u", [], 0, 0, true⟩

/-- A retention configuration with a 1 MB threshold, two rotations and
no age limit. -/
def rotCfg : RetentionConfig := { max_size_mb := 1, max_age_days := 0, rotate_count := 2 }

/-- A directory with a full active log and rotated files at suffixes 1
and 3. -/
def rotFS : LogFS := { active := some ⟨1048576, 0⟩, rot := [(1, ⟨5, 0⟩), (3, ⟨7, 0⟩)] }

/-- The error code of a pipeline outcome, if it denied. -/
def resultCode (out : PipelineResult) : Option String :=
  match out.result with
  | .error e => some e.code
  | .ok _ => none

/-- Whether `needle` occurs as a contiguous run inside `hay`. -/
def listIsInfix (needle hay : List Char) : Bool :=
  (List.range (hay.length + 1)).any fun i => (hay.drop i).take needle.length == needle

/-- All strings occurring among the values of a details dict. -/
def detailStrings (d : Details) : List String :=
  d.flatMap fun kv =>
    match kv.2 with
    | .s v => [v]
    | .strList vs => vs
    | _ => []

/-- One audit event per outcome: a denial logs exactly one deny event
whose reason is the returned error code, an admission logs exactly one
allow event, and every event carries the latency `elapsed_ms`. -/
def AuditOk (elapsed_ms : Int) (out : PipelineResult) : Prop :=
  (∀ e, out.result = .error e →
    ∃ ev, out.events = [ev] ∧ ev.action = "deny" ∧ ev.reason = e.code ∧
      ev.latency_ms = elapsed_ms) ∧
  (∀ r, out.result = .ok r →
    ∃ ev, out.events = [ev] ∧ ev.action = "allow" ∧ ev.reason = "ok" ∧
      ev.latency_ms = elapsed_ms)

/-- The rotated files have pairwise-distinct numeric suffixes (true of
any real directory listing). -/
def NodupKeys (rot : RotFiles) : Prop :=
  (rot.map Prod.fst).Nodup

/-- Expected contents after the shift loop has processed indices
`m, m-1, ..., 1`: index 1 is vacated, indices `2..m` hold the previous
occupant of the index below, index `m+1` receives `path.m` when it
existed and otherwise keeps its previous occupant, and all other
indices are untouched. -/
def shiftSpec (rot : RotFiles) (m : Nat) (k : Nat) : Option FileMeta :=
  if m = 0 then lookupRot rot k
  else if k = 0 then lookupRot rot 0
  else if k ≤ m then (if k = 1 then none else lookupRot rot (k - 1))
  else if k = m + 1 then (lookupRot rot m).or (lookupRot rot (m + 1))
  else lookupRot rot k

/-- Expected contents of `path.k` after a full rotation (before
cleanup) of an active log `f` with `rotate_count = rc ≥ 1`:
`path.1` is the old active log, `path.k` for `2 ≤ k < rc` is the old
`path.(k-1)`, `path.rc` is the old `path.(rc-1)` when that existed and
otherwise the old `path.rc`, and larger suffixes are untouched. -/
def rotatedSpec (rot : RotFiles) (f : FileMeta) (rc : Nat) (k : Nat) : Option FileMeta :=
  if k = 1 then some f
  else if k = 0 then lookupRot rot 0
  else if k < rc then lookupRot rot (k - 1)
  else if k = rc then (lookupRot rot (rc - 1)).or (lookupRot rot rc)
  else lookupRot rot k

/-! ## Theorems -/

/-- C10: when the `pii_gate` configuration supplies `patterns` as a
list containing no recognized PII type names (including the empty
list), `PIIDetectorConfig.from_dict` silently falls back to the full
default pattern set rather than an empty set, so an enabled gate can
never be configured with zero patterns. -/
theorem from_dict_unrecognized_patterns_default (en : Option Bool) (xs : List String)
    (h : ∀ x ∈ xs, piiTypeOfString x = none) :
    (PIIDetectorConfig.from_dict
        (some { enabled := en, patterns := .ofList xs })).patterns = DEFAULT_ENABLED
      ∧ DEFAULT_ENABLED ≠ [] := by
  constructor
  · have hfm : xs.filterMap piiTypeOfString = [] := by
      simp only [List.filterMap_eq_nil_iff]
      exact h
    simp [PIIDetectorConfig.from_dict, hfm]
  · simp [DEFAULT_ENABLED]

/-- C10 witness: for the unrecognized pattern list `["name", "address"]`
(and for the empty list) the resulting pattern set is the full default. -/
theorem from_dict_unrecognized_patterns_default_witness :
    (PIIDetectorConfig.from_dict
        (some { enabled := some true, patterns := .ofList ["name", "address"] })).patterns
      = DEFAULT_ENABLED :=
  (from_dict_unrecognized_patterns_default (some true) ["name", "address"]
    (by decide)).1

/-- C6: when the PII gate is configured with `enabled = false`, every
operation returns an empty result unconditionally: `scan` returns the
empty list, `contains_pii` returns false, and `scan_messages` returns
the empty map. -/
theorem pii_disabled_all_empty (config : PIIDetectorConfig)
    (h : config.enabled = false) :
    (∀ text, PIIDetector.scan config text = []) ∧
    (∀ text, PIIDetector.contains_pii config text = false) ∧
    (∀ messages, PIIDetector.scan_messages config messages = []) := by
  refine ⟨fun text => ?_, fun text => ?_, fun messages => ?_⟩ <;>
    simp [PIIDetector.scan, PIIDetector.contains_pii, PIIDetector.scan_messages, h]

/-- C6 witness: the disabled gate returns empty results on texts that
would otherwise match. -/
theorem pii_disabled_all_empty_witness :
    PIIDetector.scan { enabled := false, patterns := DEFAULT_ENABLED }
        "My SSN is 123-45-6789" = [] ∧
    PIIDetector.contains_pii { enabled := false, patterns := DEFAULT_ENABLED }
        "a@b.co" = false ∧
    PIIDetector.scan_messages { enabled := false, patterns := DEFAULT_ENABLED }
        [some "192.168.1.1"] = [] :=
  ⟨(pii_disabled_all_empty _ rfl).1 _, (pii_disabled_all_empty _ rfl).2.1 _,
    (pii_disabled_all_empty _ rfl).2.2 _⟩

/-- C2 counterexample: a 64-character uppercase hex key hash is
accepted by `TenantConfig.__post_init__`, refuting the claim that
uppercase letters cause construction to fail (the entry is normalized
with `strip().lower()` before the checks). -/
theorem post_init_accepts_uppercase :
    TenantConfig.post_init upperKeyTenant = .ok () := rfl

/-- C2 amended: with the other fields valid, construction succeeds for
a key entry exactly when, after `strip().lower()` normalization, it is
a 64-character string of hex digits — so valid lowercase digests (and
their uppercase or whitespace-padded variants) succeed, while wrong
length or non-hex characters fail. -/
theorem post_init_key_validation (k : String) :
    TenantConfig.post_init (oneKeyTenant k) = .ok ()
    ↔ ((pyLower (pyStrip k)).length = 64 ∧
        ∀ c ∈ (pyLower (pyStrip k)).data, c ∈ hexDigits) := by
  have hpre : TenantConfig.post_init (oneKeyTenant k) = checkApiKeys [k] := rfl
  rw [hpre]
  have hck : checkApiKey k
      = (if (pyLower (pyStrip k)).length ≠ 64 then
           (.error "api_keys entries must be sha256 hex digests" : Except String Unit)
         else if (pyLower (pyStrip k)).data.any fun ch => !hexDigits.contains ch then
           .error "api_keys entries must be sha256 hex digests"
         else .ok ()) := rfl
  by_cases hlen : (pyLower (pyStrip k)).length = 64
  · by_cases hbad : ((pyLower (pyStrip k)).data.any fun ch => !hexDigits.contains ch) = true
    · have h2 : checkApiKeys [k]
          = .error "api_keys entries must be sha256 hex digests" := by
        unfold checkApiKeys
        rw [hck, if_neg (by simp [hlen]), if_pos hbad]
      rw [h2]
      constructor
      · intro hcon; simp at hcon
      · rintro ⟨-, hall⟩
        rcases List.any_eq_true.mp hbad with ⟨c, hc, hnc⟩
        have hnotmem : c ∉ hexDigits := by
          simp only [Bool.not_eq_true'] at hnc
          simpa using hnc
        exact absurd (hall c hc) hnotmem
    · have h2 : checkApiKeys [k] = .ok () := by
        unfold checkApiKeys
        rw [hck, if_neg (by simp [hlen]), if_neg hbad]
        rfl
      rw [h2]
      refine ⟨fun _ => ⟨hlen, fun c hc => ?_⟩, fun _ => rfl⟩
      have hfa := List.any_eq_false.mp (Bool.of_not_eq_true hbad) c hc
      simpa using hfa
  · have h2 : checkApiKeys [k]
        = .error "api_keys entries must be sha256 hex digests" := by
      unfold checkApiKeys
      rw [hck, if_pos (by simpa using hlen)]
    rw [h2]
    constructor
    · intro hcon; simp at hcon
    · rintro ⟨hl, -⟩; exact absurd hl hlen

/-- C3 counterexample: a raw policy whose `allowedProviders` is empty
and whose `logging.mode` is also invalid raises the logging-mode error,
not "allowed_providers must be non-empty" — the providers check is not
performed first. -/
theorem from_dict_mode_error_before_providers :
    Policy.from_dict emptyProvidersBadModeRaw
      = .error "Unsupported logging.mode: content"
    ∧ ("Unsupported logging.mode: content" : String)
        ≠ "allowed_providers must be non-empty" := by
  constructor
  · rfl
  · decide

/-- C3 amended: `Policy.from_dict` validates `logging.mode`,
`logging.sink`, `logging.path` and the retention bounds first and
checks `allowedProviders` last: when all of those are valid and the
providers list is empty or absent, it raises exactly
"allowed_providers must be non-empty"; no partial `Policy` is returned
on any failure because every outcome is either a single error or a
fully constructed value. -/
theorem from_dict_empty_providers_error (data : RawPolicy)
    (hmode : ((data.logging.getD {}).mode.getD "metadata_only") = "metadata_only")
    (hsink : ((data.logging.getD {}).sink.getD "jsonl") = "jsonl"
              ∨ ((data.logging.getD {}).sink.getD "jsonl") = "stdout")
    (hpath : ((data.logging.getD {}).sink.getD "jsonl") = "jsonl"
              → ((data.logging.getD {}).path.getD "") ≠ "")
    (hms : 0 ≤ (((data.logging.getD {}).retention.getD {}).max_size_mb.getD DEFAULT_MAX_SIZE_MB))
    (hma : 0 ≤ (((data.logging.getD {}).retention.getD {}).max_age_days.getD DEFAULT_MAX_AGE_DAYS))
    (hrc : 0 ≤ (((data.logging.getD {}).retention.getD {}).rotate_count.getD DEFAULT_ROTATE_COUNT))
    (hprov : pyOrList data.allowed_providers [] = []) :
    Policy.from_dict data = .error "allowed_providers must be non-empty" := by
  simp only [Policy.from_dict]
  rw [hmode]
  rcases hsink with hs | hs
  · have hp := hpath hs
    rw [hs]
    simp [hp, hprov, not_lt.mpr hms, not_lt.mpr hma, not_lt.mpr hrc]
  · rw [hs]
    simp [hprov, not_lt.mpr hms, not_lt.mpr hma, not_lt.mpr hrc]

/-- C3 witness: with a valid stdout logging configuration and an empty
provider list, `from_dict` raises exactly the providers error. -/
theorem from_dict_empty_providers_error_witness :
    Policy.from_dict emptyProvidersStdoutRaw
      = .error "allowed_providers must be non-empty" :=
  from_dict_empty_providers_error emptyProvidersStdoutRaw rfl (Or.inr rfl)
    (fun h => absurd h (by decide)) (by decide) (by decide) (by decide) rfl

/-- C7: with the PII gate enabled for `ssn` only, scanning
`"My SSN is 123-45-6789"` returns exactly one match of type `ssn`
whose offsets 10..21 select the substring `"123-45-6789"`; the
pipeline's denial is `pii_detected` with `detected_types = ["ssn"]`
and none of the detail strings contains the matched substring (a
`PIIMatch` stores only the type and the offsets). -/
theorem ssn_scan_offsets_and_denial :
    PIIDetector.scan ssnOnlyGate "My SSN is 123-45-6789"
      = [{ pii_type := .ssn, start := 10, end_ := 21 }] ∧
    (("My SSN is 123-45-6789".data.drop 10).take (21 - 10)).asString = "123-45-6789" ∧
    (chat_completions envSsn ssnReq none none "zv_req" 0 0).result
      = .error ssnDenialError ∧
    ((detailStrings ssnDenialDetails).all
      fun v => !(listIsInfix "123-45-6789".data v.data)) = true := by
  refine ⟨by decide, by decide, by rfl, by decide⟩

/-- C1 counterexample: a request whose single message content contains
a null byte and which also violates the later `zdr_only` check is
denied with code `policy_denied`, not `invalid_request` — the null-byte
structural check does not run before the attestation checks. -/
theorem null_byte_after_zdr_check :
    noPiiPolicy.enforce_zdr_only = true ∧
    nullByteReq.zdr_only = false ∧
    ((nullByteReq.messages.map fun m =>
        (m.content.getD "").data.contains '\x00').all id) = true ∧
    resultCode (chat_completions envNoPII nullByteReq none none "zv_c1" 0 0)
      = some "policy_denied" ∧
    some "policy_denied" ≠ some "invalid_request" := by
  refine ⟨rfl, rfl, by decide, by decide, by decide⟩

/-- C1 amended: the null-byte structural check runs after content
screening, policy limits, and attestation.  For every request that
passes authentication (open mode), has non-empty messages with allowed
roles, no PII hits, and is within the policy limits, a `zdr_only`
violation is denied as `policy_denied` even when a message content
contains a null byte. -/
theorem zdr_check_precedes_null_byte_check (p : Policy)
    (req : ChatCompletionsRequest) (hash : String → String)
    (auth xt : Option String) (rid : String) (now el : Int)
    (hmsgs : req.messages ≠ [])
    (hroles : ∀ m ∈ req.messages, ALLOWED_ROLES.contains m.role = true)
    (hpii : ∀ m ∈ req.messages, PIIDetector.scan p.pii_gate (m.content.getD "") = [])
    (hcount : (req.messages.length : Int) ≤ p.max_messages)
    (hmodel : p.allowed_models.contains "*" = true)
    (hchars : ∀ m ∈ req.messages,
      ((m.content.getD "").length : Int) ≤ p.max_chars_per_message)
    (hnull : ∃ m ∈ req.messages, (m.content.getD "").data.contains '\x00' = true)
    (hzdr : p.enforce_zdr_only = true) (hz : req.zdr_only = false) :
    (chat_completions ⟨hash, p, none, none⟩ req auth xt rid now el).result
      = .error zdrDenialError := by
  clear hnull
  have hmem : ∀ im ∈ req.messages.enum, im.2 ∈ req.messages := by
    intro im him
    have hm := List.mem_map_of_mem Prod.snd him
    rwa [List.enum_map_snd] at hm
  have hfindRole : req.messages.enum.find?
      (fun im => !ALLOWED_ROLES.contains im.2.role) = none := by
    apply List.find?_eq_none.mpr
    intro im him
    simpa using hroles im.2 (hmem im him)
  have hfindPii : req.messages.enum.find?
      (fun im => !(PIIDetector.scan p.pii_gate (im.2.content.getD "")).isEmpty) = none := by
    apply List.find?_eq_none.mpr
    intro im him
    simp [hpii im.2 (hmem im him)]
  have hfindChars : req.messages.enum.find?
      (fun im => decide (p.max_chars_per_message < ((im.2.content.getD "").length : Int))) = none := by
    apply List.find?_eq_none.mpr
    intro im him
    simp [not_lt.mpr (hchars im.2 (hmem im him))]
  have hne : req.messages.isEmpty = false := by
    simpa [List.isEmpty_iff] using hmsgs
  have hpiiHit : (if p.pii_gate.enabled = true then
      req.messages.enum.find?
        (fun im => !(PIIDetector.scan p.pii_gate (im.2.content.getD "")).isEmpty)
      else none) = none := by
    split
    · exact hfindPii
    · rfl
  simp only [chat_completions, authPhase]
  rw [hne, hfindRole, hpiiHit]
  rw [if_neg (not_lt.mpr hcount)]
  have hstar : "*" ∈ p.allowed_models := by simpa using hmodel
  simp [hstar, hzdr, hz, hfindChars, denyOut, mkDenyEvent, zdrDenialError]

/-- C1 amended witness: the concrete null-byte request of the
counterexample is denied with the `zdr_only` policy error. -/
theorem zdr_check_precedes_null_byte_check_witness :
    (chat_completions envNoPII nullByteReq none none "zv_c1" 0 0).result
      = .error zdrDenialError :=
  zdr_check_precedes_null_byte_check noPiiPolicy nullByteReq id none none
    "zv_c1" 0 0 (by decide) (by decide) (by decide) (by decide) (by decide)
    (by decide) (by decide) rfl rfl

/-- Auxiliary: `getLast?` of a cons in terms of the tail. -/
theorem getLast?_cons_elim {α : Type} (a : α) (l : List α) :
    (a :: l).getLast? = (l.getLast?).elim (some a) some := by
  cases l with
  | nil => simp
  | cons b bs =>
      rw [List.getLast?_cons_cons]
      cases hl : (b :: bs).getLast? with
      | none => exact absurd hl (by simp)
      | some u => rfl

/-- Auxiliary: the inner key fold of `authenticate` keeps the previous
match unless this tenant is enabled and holds the token hash. -/
theorem authenticate_inner_fold (token_hash : String) (tenant : TenantConfig) :
    ∀ (keys : List String) (m : Option TenantConfig),
      keys.foldl (fun m candidate =>
          if token_hash = candidate && tenant.enabled then some tenant else m) m
        = if tenant.enabled && keys.contains token_hash then some tenant else m := by
  intro keys
  induction keys with
  | nil => intro m; simp
  | cons c ks ih =>
      intro m
      rw [List.foldl_cons, ih]
      by_cases hm : token_hash = c
      · by_cases he : tenant.enabled = true
        · simp [hm, he]
        · simp at he
          simp [he]
      · have hm' : (token_hash == c) = false := by simpa using hm
        simp [List.contains_cons, hm, hm']

/-- Auxiliary: a fold that overwrites the accumulator on every
satisfying element computes the last satisfying element. -/
theorem foldl_last_filter {α : Type} (P : α → Bool) :
    ∀ (ts : List α) (acc : Option α),
      ts.foldl (fun a t => if P t then some t else a) acc
        = ((ts.filter P).getLast?).elim acc some := by
  intro ts
  induction ts with
  | nil => intro acc; rfl
  | cons t ts ih =>
      intro acc
      rw [List.foldl_cons, ih]
      by_cases hP : P t = true
      · rw [List.filter_cons_of_pos hP, getLast?_cons_elim]
        cases hl : (ts.filter P).getLast? <;> simp [hl, hP]
      · rw [List.filter_cons_of_neg (by simpa using hP)]
        simp [hP]

/-- C9: `authenticate` strips the token, returns `none` when the
stripped token is empty, and otherwise returns the last tenant in
registration order that is enabled and holds the token's hash — so a
hash registered under several enabled tenants resolves to the last
one, and a disabled tenant is never returned. -/
theorem authenticate_last_enabled_match (hash : String → String)
    (tenants : List TenantConfig) (bearer_token : String) :
    authenticate hash tenants bearer_token
      = if pyStrip bearer_token = "" then none
        else (tenants.filter fun t =>
            t.enabled && t.api_keys.contains (hash (pyStrip bearer_token))).getLast? := by
  unfold authenticate
  by_cases h : pyStrip bearer_token = ""
  · simp [h]
  · rw [if_neg h, if_neg h]
    show List.foldl
        (fun matched tenant =>
          List.foldl
            (fun m candidate =>
              if (decide (hash (pyStrip bearer_token) = candidate) && tenant.enabled) = true
              then some tenant else m)
            matched tenant.api_keys)
        none tenants = _
    rw [List.foldl_ext _
      (fun (a : Option TenantConfig) (t : TenantConfig) =>
        if (t.enabled && t.api_keys.contains (hash (pyStrip bearer_token))) = true
        then some t else a)
      none
      (fun a t _ => authenticate_inner_fold (hash (pyStrip bearer_token)) t t.api_keys a)]
    rw [foldl_last_filter]
    cases hl : (tenants.filter fun t =>
        t.enabled && t.api_keys.contains (hash (pyStrip bearer_token))).getLast? <;>
      simp [hl]

/-- C4: for a tenant with `rateLimitRPM = 2`, the first two
`check_rate_limit` calls within a 60-second window allow and append the
current time to the window, a third call within the window denies
without appending, and once the window has fully elapsed a new call
allows again; a tenant with limit 0 is never checked on the RPM
dimension (the call allows and leaves the registry untouched). -/
theorem rpm_sliding_window (t1 t2 t3 t4 : Int) (h12 : t1 ≤ t2) (h23 : t2 ≤ t3)
    (hwin : t3 < t1 + 60) (h4 : t2 + 60 ≤ t4) :
    (check_rate_limit rpm2State "acme" t1).1 = true ∧
    lookupD (check_rate_limit rpm2State "acme" t1).2.requests_by_tenant "acme" [] = [t1] ∧
    (check_rate_limit (check_rate_limit rpm2State "acme" t1).2 "acme" t2).1 = true ∧
    lookupD (check_rate_limit (check_rate_limit rpm2State "acme" t1).2 "acme" t2).2.requests_by_tenant
      "acme" [] = [t1, t2] ∧
    (check_rate_limit (check_rate_limit (check_rate_limit rpm2State "acme" t1).2 "acme" t2).2
      "acme" t3).1 = false ∧
    lookupD (check_rate_limit (check_rate_limit (check_rate_limit rpm2State "acme" t1).2
      "acme" t2).2 "acme" t3).2.requests_by_tenant "acme" [] = [t1, t2] ∧
    (check_rate_limit (check_rate_limit (check_rate_limit (check_rate_limit rpm2State
      "acme" t1).2 "acme" t2).2 "acme" t3).2 "acme" t4).1 = true ∧
    lookupD (check_rate_limit (check_rate_limit (check_rate_limit (check_rate_limit rpm2State
      "acme" t1).2 "acme" t2).2 "acme" t3).2 "acme" t4).2.requests_by_tenant "acme" [] = [t4] ∧
    (∀ (reqw : List (String × List Int)) (tokw : List (String × List (Int × Int))) (now : Int),
      check_rate_limit ⟨[unlimitedTenant], reqw, tokw⟩ "u" now
        = (true, ⟨[unlimitedTenant], reqw, tokw⟩)) := by
  have e1 : ¬ (t1 ≤ t2 - 60) := by omega
  have e2 : ¬ (t1 ≤ t3 - 60) := by omega
  have e3 : ¬ (t2 ≤ t3 - 60) := by omega
  have e4 : (t1 ≤ t4 - 60) := by omega
  have e5 : (t2 ≤ t4 - 60) := by omega
  refine ⟨?_, ?_, ?_, ?_, ?_, ?_, ?_, ?_, fun reqw tokw now => rfl⟩ <;>
    simp [check_rate_limit, rpmStep, prune_requests, RegistryState.findTenant,
      lookupD, setKey, rpm2State, acmeTenant, e1, e2, e3, e4, e5]

/-- C4 witness: the scenario instantiated at times 0, 1, 2 and 61. -/
theorem rpm_sliding_window_witness :
    (check_rate_limit (check_rate_limit (check_rate_limit rpm2State "acme" 0).2
      "acme" 1).2 "acme" 2).1 = false ∧
    (check_rate_limit (check_rate_limit (check_rate_limit (check_rate_limit rpm2State
      "acme" 0).2 "acme" 1).2 "acme" 2).2 "acme" 61).1 = true :=
  ⟨(rpm_sliding_window 0 1 2 61 (by decide) (by decide) (by decide) (by decide)).2.2.2.2.1,
   (rpm_sliding_window 0 1 2 61 (by decide) (by decide) (by decide) (by decide)).2.2.2.2.2.2.1⟩

/-- Auxiliary: the `deny` helper logs exactly one deny event whose
reason is the raised error's code. -/
theorem denyOut_auditOk (req : ChatCompletionsRequest) (rid tid code msg : String)
    (details : Details) (http : Nat) (now el : Int) (reg : Option RegistryState) :
    AuditOk el (denyOut req rid tid code msg details http now el reg) := by
  constructor
  · intro e he
    have he' : (⟨http, code, msg, details⟩ : GatewayError) = e := by
      simpa [denyOut] using he
    exact ⟨mkDenyEvent req rid tid code details now el, rfl, rfl,
      by rw [← he']; rfl, rfl⟩
  · intro r hr
    simp [denyOut] at hr

/-- Auxiliary: every denial produced by the authentication and
rate-limit prologue logs exactly one deny event. -/
theorem authPhase_auditOk (env : GatewayEnv) (req : ChatCompletionsRequest)
    (auth : Option String) (tid0 rid : String) (now el : Int) :
    ∀ out, authPhase env req auth tid0 rid now el = .inl out → AuditOk el out := by
  intro out h
  simp only [authPhase] at h
  split at h
  · split at h
    · cases h
      apply denyOut_auditOk
    · split at h
      · cases h
        apply denyOut_auditOk
      · split at h
        · cases h
          apply denyOut_auditOk
        · cases h
  · split at h
    · split at h
      · cases h
        apply denyOut_auditOk
      · split at h
        · cases h
          apply denyOut_auditOk
        · cases h
    · cases h

/-- C5: every denied request logs exactly one audit event, a deny
event whose reason equals the returned error code, before the typed
error is returned; every admitted request logs exactly one allow
event; and every logged event carries the latency measured from
request receipt (`elapsed_ms`).  The hypothesis rules out the broken
configuration with an empty provider list, on which the success path
raises an unaudited internal error. -/
theorem audit_exactly_once (env : GatewayEnv) (req : ChatCompletionsRequest)
    (auth xt : Option String) (rid : String) (now el : Int)
    (hprov : env.policy.allowed_providers ≠ []) :
    AuditOk el (chat_completions env req auth xt rid now el) := by
  simp only [chat_completions]
  split
  next out hout => exact authPhase_auditOk _ _ _ _ _ _ _ out hout
  next tr htr =>
    repeat' split
    all_goals
      first
      | apply denyOut_auditOk
      | (constructor
         · intro e he
           simp at he
         · intro r hr
           exact ⟨_, rfl, rfl, rfl, rfl⟩)
      | (next out2 hmd =>
          repeat' split at hmd
          all_goals cases hmd <;> apply denyOut_auditOk)
      | (next hhead =>
          exact absurd (by simpa [List.head?_eq_none_iff] using hhead) hprov)

/-- C5 witness: the concrete null-byte request is denied and its single
audit event is a deny event with the error's code and the request
latency. -/
theorem audit_exactly_once_witness :
    ∃ ev, (chat_completions envNoPII nullByteReq none none "zv_c1" 0 7).events = [ev] ∧
      ev.action = "deny" ∧ ev.reason = zdrDenialError.code ∧ ev.latency_ms = 7 :=
  (audit_exactly_once envNoPII nullByteReq none none "zv_c1" 0 7 (by decide)).1
    zdrDenialError rfl

/-- Auxiliary: looking up a cons cell. -/
theorem lookupRot_cons (kv : Nat × FileMeta) (rot : RotFiles) (j : Nat) :
    lookupRot (kv :: rot) j = if kv.1 = j then some kv.2 else lookupRot rot j := by
  unfold lookupRot
  rw [List.find?_cons]
  by_cases h : kv.1 = j <;> simp [h]

/-- Auxiliary: keys absent from the listing look up to `none`. -/
theorem lookupRot_eq_none (rot : RotFiles) (k : Nat)
    (h : k ∉ rot.map Prod.fst) : lookupRot rot k = none := by
  induction rot with
  | nil => rfl
  | cons kv rot ih =>
      simp only [List.map_cons, List.mem_cons] at h
      push_neg at h
      rw [lookupRot_cons, if_neg (fun he => h.1 he.symm)]
      exact ih h.2

/-- Auxiliary: erasing a suffix removes exactly that key. -/
theorem lookupRot_eraseRot (rot : RotFiles) (k j : Nat) :
    lookupRot (eraseRot rot k) j = if j = k then none else lookupRot rot j := by
  induction rot with
  | nil => simp [eraseRot, lookupRot]
  | cons kv rot ih =>
      by_cases hk : kv.1 = k
      · rw [show eraseRot (kv :: rot) k = eraseRot rot k by simp [eraseRot, hk], ih,
          lookupRot_cons]
        by_cases hj : j = k
        · simp [hj]
        · rw [if_neg hj, if_neg hj, if_neg (by rw [hk]; exact fun he => hj he.symm)]
      · rw [show eraseRot (kv :: rot) k = kv :: eraseRot rot k by simp [eraseRot, hk],
          lookupRot_cons, ih, lookupRot_cons]
        by_cases hj : j = k
        · simp [hj, show kv.1 ≠ k from hk]
        · rw [if_neg hj, if_neg hj]

/-- Auxiliary: looking up an append. -/
theorem lookupRot_append (a b : RotFiles) (j : Nat) :
    lookupRot (a ++ b) j = (lookupRot a j).or (lookupRot b j) := by
  induction a with
  | nil => simp [lookupRot]
  | cons kv a ih =>
      rw [List.cons_append, lookupRot_cons, lookupRot_cons]
      by_cases h : kv.1 = j <;> simp [h, ih]

/-- Auxiliary: writing a suffix overwrites exactly that key. -/
theorem lookupRot_writeRot (rot : RotFiles) (k : Nat) (f : FileMeta) (j : Nat) :
    lookupRot (writeRot rot k f) j = if j = k then some f else lookupRot rot j := by
  unfold writeRot
  rw [lookupRot_append, lookupRot_eraseRot, lookupRot_cons]
  by_cases h : j = k
  · simp [h]
  · rw [if_neg h, if_neg (fun he => h he.symm), if_neg h]
    simp [lookupRot]

/-- Auxiliary: one shift iteration, described pointwise. -/
theorem lookupRot_shiftStep (rot : RotFiles) (i j : Nat) :
    lookupRot (shiftStep rot i) j =
      if j = i then none
      else if j = i + 1 then (lookupRot rot i).or (lookupRot rot (i + 1))
      else lookupRot rot j := by
  unfold shiftStep
  cases hsi : lookupRot rot i with
  | none =>
      by_cases h1 : j = i
      · simp [h1, hsi]
      · by_cases h2 : j = i + 1
        · simp [h1, h2, hsi]
        · simp [h1, h2]
  | some f =>
      rw [lookupRot_writeRot, lookupRot_eraseRot]
      by_cases h1 : j = i
      · rw [if_pos h1, if_neg (by omega), if_pos h1]
      · by_cases h2 : j = i + 1
        · rw [if_pos h2, if_neg h1, if_pos h2]
          rfl
        · rw [if_neg h2, if_neg h1, if_neg h1, if_neg h2]

/-- Auxiliary: erasing preserves distinct keys. -/
theorem nodupKeys_eraseRot (rot : RotFiles) (k : Nat) (h : NodupKeys rot) :
    NodupKeys (eraseRot rot k) :=
  ((List.filter_sublist rot).map Prod.fst).nodup h

/-- Auxiliary: the erased listing does not hold the erased key. -/
theorem not_mem_keys_eraseRot (rot : RotFiles) (k : Nat) :
    k ∉ (eraseRot rot k).map Prod.fst := by
  intro hmem
  rcases List.mem_map.mp hmem with ⟨kv, hkv, hfst⟩
  have hne := List.of_mem_filter hkv
  simp at hne
  exact hne hfst

/-- Auxiliary: writing preserves distinct keys. -/
theorem nodupKeys_writeRot (rot : RotFiles) (k : Nat) (f : FileMeta)
    (h : NodupKeys rot) : NodupKeys (writeRot rot k f) := by
  unfold writeRot NodupKeys
  rw [List.map_append]
  apply List.Nodup.append (nodupKeys_eraseRot rot k h) (by simp)
  intro x hx hx'
  have hxk : x = k := by simpa using hx'
  rw [hxk] at hx
  exact not_mem_keys_eraseRot rot k hx

/-- Auxiliary: a shift iteration preserves distinct keys. -/
theorem nodupKeys_shiftStep (rot : RotFiles) (i : Nat) (h : NodupKeys rot) :
    NodupKeys (shiftStep rot i) := by
  unfold shiftStep
  cases lookupRot rot i with
  | none => exact h
  | some f => exact nodupKeys_writeRot _ _ _ (nodupKeys_eraseRot rot i h)

/-- Auxiliary: the shift loop preserves distinct keys. -/
theorem nodupKeys_shiftRotations (rot : RotFiles) (m : Nat) (h : NodupKeys rot) :
    NodupKeys (shiftRotations rot m) := by
  induction m generalizing rot with
  | zero => exact h
  | succ m ih => exact ih _ (nodupKeys_shiftStep rot (m + 1) h)

/-- Auxiliary: the shift loop, described pointwise by `shiftSpec`. -/
theorem lookupRot_shiftRotations (m : Nat) : ∀ (rot : RotFiles) (k : Nat),
    lookupRot (shiftRotations rot m) k = shiftSpec rot m k := by
  induction m with
  | zero => intro rot k; simp [shiftRotations, shiftSpec]
  | succ m ih =>
      intro rot k
      rw [show shiftRotations rot (m + 1)
            = shiftRotations (shiftStep rot (m + 1)) m from rfl, ih]
      unfold shiftSpec
      simp only [lookupRot_shiftStep]
      split_ifs <;>
        first
          | rfl
          | contradiction
          | omega
          | (congr 1 <;> first
              | rfl
              | omega
              | (congr 1 <;> first | rfl | omega))
          | (simp only [Option.or_none] <;> first
              | rfl
              | omega
              | (congr 1 <;> first
                  | rfl
                  | omega
                  | (congr 1 <;> first | rfl | omega)))

/-- Auxiliary: keys of a filtered listing come from the original. -/
theorem keys_filter_subset (p : Nat × FileMeta → Bool) (rot : RotFiles) :
    ∀ x, x ∈ (rot.filter p).map Prod.fst → x ∈ rot.map Prod.fst := by
  intro x hx
  rcases List.mem_map.mp hx with ⟨kv, hkv, hfst⟩
  exact List.mem_map.mpr ⟨kv, List.mem_of_mem_filter hkv, hfst⟩

/-- Auxiliary: filtering a distinct-key listing acts pointwise on the
lookup. -/
theorem lookupRot_filter (p : Nat × FileMeta → Bool) (rot : RotFiles)
    (hnd : NodupKeys rot) (k : Nat) :
    lookupRot (rot.filter p) k
      = (lookupRot rot k).bind fun f => if p (k, f) then some f else none := by
  induction rot with
  | nil => rfl
  | cons kv rot ih =>
      simp only [NodupKeys, List.map_cons, List.nodup_cons] at hnd
      have hk1 : kv.1 ∉ rot.map Prod.fst := hnd.1
      have hnd' : NodupKeys rot := hnd.2
      by_cases hp : p kv = true
      · rw [List.filter_cons_of_pos hp, lookupRot_cons, lookupRot_cons]
        by_cases h1 : kv.1 = k
        · subst h1
          simp [hp]
        · rw [if_neg h1, if_neg h1, ih hnd']
      · rw [List.filter_cons_of_neg (by simpa using hp)]
        by_cases h1 : kv.1 = k
        · subst h1
          rw [lookupRot_cons, if_pos rfl]
          rw [lookupRot_eq_none (rot.filter p) kv.1
            (fun hmem => hk1 (keys_filter_subset p rot kv.1 hmem))]
          simp [hp]
        · rw [ih hnd', lookupRot_cons, if_neg h1]

/-- Auxiliary: `rotatedSpec` is the shift-loop spec plus the final move
of the active log to suffix 1. -/
theorem rotatedSpec_eq_shift (rot : RotFiles) (f : FileMeta) (rc : Nat)
    (hrc : 1 ≤ rc) (k : Nat) :
    (if k = 1 then some f else shiftSpec rot (rc - 1) k) = rotatedSpec rot f rc k := by
  unfold shiftSpec rotatedSpec
  split_ifs <;>
    first
      | rfl
      | contradiction
      | omega
      | (congr 1 <;> first
          | rfl
          | omega
          | (congr 1 <;> first | rfl | omega))
      | (simp only [Option.or_none] <;> first
          | rfl
          | omega
          | (congr 1 <;> first
              | rfl
              | omega
              | (congr 1 <;> first | rfl | omega)))

/-- C8: `maybe_rotate` is a no-op when `rotate_count = 0` or
`max_size_mb = 0` or the active log is missing or below the size
threshold; otherwise it shifts `path.i` to `path.(i+1)` for `i` from
`rotate_count-1` down to 1 (when `path.i` exists), moves the active
log to `path.1` last, and the cleanup pass then deletes every rotated
file whose numeric suffix exceeds `rotate_count` and every rotated
file older than the `max_age_days` cutoff, with age-based deletion
skipped entirely when `max_age_days = 0` — stated as the pointwise
description `rotatedSpec` filtered by `cleanupKeep`. -/
theorem maybe_rotate_spec (cfg : RetentionConfig) (now : Int) (fs : LogFS)
    (hnd : NodupKeys fs.rot) :
    ((cfg.rotate_count ≤ 0 ∨ cfg.max_size_mb ≤ 0) → maybe_rotate cfg now fs = fs) ∧
    (fs.active = none → maybe_rotate cfg now fs = fs) ∧
    (∀ f, fs.active = some f → (f.size : Int) < cfg.max_size_mb * 1024 * 1024 →
      maybe_rotate cfg now fs = fs) ∧
    (∀ f, fs.active = some f → 0 < cfg.rotate_count → 0 < cfg.max_size_mb →
      cfg.max_size_mb * 1024 * 1024 ≤ (f.size : Int) →
      (maybe_rotate cfg now fs).active = none ∧
      ∀ k, lookupRot (maybe_rotate cfg now fs).rot k
        = Option.filter (fun g => cleanupKeep cfg now (k, g))
            (rotatedSpec fs.rot f cfg.rotate_count.toNat k)) := by
  refine ⟨?_, ?_, ?_, ?_⟩
  · intro h
    unfold maybe_rotate
    rw [if_pos (by rcases h with h | h <;> simp [h])]
  · intro h
    unfold maybe_rotate
    split
    · rfl
    · rw [h]
  · intro f hf hsize
    unfold maybe_rotate
    split
    · rfl
    · simp only [hf]
      rw [if_pos hsize]
  · intro f hf hrc hms hsize
    have hnd2 : NodupKeys (writeRot
        (shiftRotations fs.rot (cfg.rotate_count - 1).toNat) 1 f) :=
      nodupKeys_writeRot _ _ _ (nodupKeys_shiftRotations _ _ hnd)
    unfold maybe_rotate
    rw [if_neg (by simp only [Bool.or_eq_true, decide_eq_true_eq]; omega)]
    simp only [hf]
    rw [if_neg (not_lt.mpr hsize)]
    constructor
    · unfold cleanup_rotated_files
      split <;> rfl
    · intro k
      unfold cleanup_rotated_files
      rw [if_neg (by omega)]
      rw [lookupRot_filter _ _ hnd2 k]
      have hlk : lookupRot (writeRot
          (shiftRotations fs.rot (cfg.rotate_count - 1).toNat) 1 f) k
          = rotatedSpec fs.rot f cfg.rotate_count.toNat k := by
        rw [lookupRot_writeRot, lookupRot_shiftRotations]
        rw [show (cfg.rotate_count - 1).toNat = cfg.rotate_count.toNat - 1 by omega]
        exact rotatedSpec_eq_shift fs.rot f cfg.rotate_count.toNat (by omega) k
      rw [hlk]
      cases rotatedSpec fs.rot f cfg.rotate_count.toNat k <;> rfl

/-- C8 witness: with threshold 1 MB, two rotations and no age limit, a
full active log and rotated files at suffixes 1 and 3, rotation moves
the active log to suffix 1, the old suffix 1 to suffix 2, and cleanup
deletes suffix 3. -/
theorem maybe_rotate_spec_witness :
    (maybe_rotate rotCfg 0 rotFS).active = none ∧
    lookupRot (maybe_rotate rotCfg 0 rotFS).rot 1 = some ⟨1048576, 0⟩ ∧
    lookupRot (maybe_rotate rotCfg 0 rotFS).rot 2 = some ⟨5, 0⟩ ∧
    lookupRot (maybe_rotate rotCfg 0 rotFS).rot 3 = none := by
  have h := (maybe_rotate_spec rotCfg 0 rotFS
    (by unfold NodupKeys; decide)).2.2.2 ⟨1048576, 0⟩ rfl
    (by decide) (by decide) (by decide)
  exact ⟨h.1, by rw [h.2 1]; rfl, by rw [h.2 2]; rfl, by rw [h.2 3]; rfl⟩

end ZeroVeil
